import Mathlib

/-!
Shallow embedding of the document ingestion and retrieval subsystem of the
rgb-test-express repository (Express + Mongoose).  The relevant source is the
files router (src/unnamed/part_001, lines 11-272), the file schema
(src/models/file.js) and the user schema (src/unnamed/part_001, lines 1-10).

Identifiers (Mongo ObjectIds) are modelled as naturals assigned by a
monotonic counter `nextFileId`; the persistence store is a pair of
association lists kept in insertion order, which is the natural order an
unsorted Mongo `find` returns on this data.  Fallible store writes
(`file.save()` / `user.save()`) are modelled by boolean oracles in
`StoreEnv`, so that the partial-failure branch of the upload handler is
expressible.
-/

namespace RgbTest

/-- Document record, from `fileSchema` in src/models/file.js: `pageCount`
is optional in the schema (`{ type: Number }`, not required). -/
structure FileRecord where
  filename : String
  originalname : String
  mimetype : String
  size : Nat
  pageCount : Option Nat
  uploadedBy : Nat
deriving DecidableEq

/-- Owner record, from `userSchema` in src/unnamed/part_001 lines 3-6:
a name plus the list of owned file ids. -/
structure UserRecord where
  name : String
  files : List Nat
deriving DecidableEq

/-- The two Mongo collections, in insertion order, plus the id counter that
stands for ObjectId generation. -/
structure Store where
  users : List (Nat × UserRecord)
  files : List (Nat × FileRecord)
  nextFileId : Nat
deriving DecidableEq

/-- `User.findById` -/
def Store.findUser (s : Store) (uid : Nat) : Option UserRecord :=
  (s.users.find? (fun p => p.1 == uid)).map Prod.snd

/-- `user.save()` after in-memory mutation: persist the record under its id. -/
def Store.saveUser (s : Store) (uid : Nat) (u : UserRecord) : Store :=
  { s with users := s.users.map (fun p => if p.1 == uid then (uid, u) else p) }

/-- Abstract content of an uploaded payload: either a well-formed PDF with a
page count (what `pdfLib.PDFDocument.load` + `getPageCount` would return) or
malformed bytes on which `load` throws with the given message. -/
inductive FileBytes where
  | pdf (pages : Nat)
  | malformed (msg : String)
deriving DecidableEq

/-- `pdfLib.PDFDocument.load(...)` followed by `getPageCount()` (part_001
lines 120-121); throwing is modelled as `Except.error`. -/
def pdfLoad : FileBytes → Except String Nat
  | FileBytes.pdf pages => Except.ok pages
  | FileBytes.malformed msg => Except.error msg

/-- A candidate upload as multer sees it in the multipart stream. -/
structure IncomingFile where
  originalname : String
  mimetype : String
  size : Nat
  bytes : FileBytes
deriving DecidableEq

/-- The single allowed MIME type (part_001 line 32). -/
def allowedMimeType : String := "application/pdf"

/-- `limits: { fileSize: 5 * 1024 * 1024 }` (part_001 line 30). -/
def maxFileSize : Nat := 5 * 1024 * 1024

/-- multer `fileFilter` (part_001 lines 31-36): consulted before any byte of
the file is written to the staging area. -/
def fileFilter (f : IncomingFile) : Except String Unit :=
  if f.mimetype ≠ allowedMimeType then Except.error "Only PDF files are allowed"
  else Except.ok ()

/-- `req.file` after multer staged the payload: `filename` is the
disk-storage name `Date.now() + '-' + file.originalname` (part_001 line 24). -/
structure StagedFile where
  filename : String
  originalname : String
  mimetype : String
  size : Nat
  bytes : FileBytes
deriving DecidableEq

/-- The whole multer middleware for one file: fileFilter, then the size
limit, then the disk write that produces `req.file`.  On any error the file
is not staged and the route handler never runs. -/
def multerProcess (now : Nat) (f : IncomingFile) : Except String StagedFile :=
  match fileFilter f with
  | Except.error e => Except.error e
  | Except.ok _ =>
    if f.size > maxFileSize then Except.error "File too large"
    else Except.ok
      { filename := toString now ++ "-" ++ f.originalname
        originalname := f.originalname
        mimetype := f.mimetype
        size := f.size
        bytes := f.bytes }

/-- Oracles for the fallible Mongoose writes inside the upload handler:
whether `file.save()` / `user.save()` succeed, and the error messages they
throw with when they do not. -/
structure StoreEnv where
  fileSaveOk : Bool
  fileSaveMsg : String
  userSaveOk : Bool
  userSaveMsg : String
deriving DecidableEq

/-- Outcome of the `router.post('/')` handler body (part_001 lines 107-140). -/
inductive UploadResult where
  | noFile
  | userNotFound
  | caughtError (msg : String)
  | created (id : Nat) (rec : FileRecord)
deriving DecidableEq

/-- HTTP status the handler sends for each outcome: 400 for the missing-file
check and for anything reaching the catch block, 404 for a missing user,
201 on success. -/
def UploadResult.status : UploadResult → Nat
  | UploadResult.noFile => 400
  | UploadResult.userNotFound => 404
  | UploadResult.caughtError _ => 400
  | UploadResult.created _ _ => 201

/-- Response of the full POST /files request: a multer error is handled by
the app-level error middleware (src/app.js lines 50-56), everything else by
the route handler. -/
inductive PostFilesResponse where
  | multerReject (msg : String)
  | handler (r : UploadResult)
deriving DecidableEq

/-- Status mapping: the error middleware sends `err.status || 500`, and the
plain `Error` thrown by the fileFilter has no `status`, hence 500. -/
def PostFilesResponse.status : PostFilesResponse → Nat
  | PostFilesResponse.multerReject _ => 500
  | PostFilesResponse.handler r => r.status

/-- The try-block of `router.post('/')` (part_001 lines 108-139), given the
staged file: find the user (404 if missing), parse the PDF, build and save
the File record, push its id onto `user.files` and save the user.  A throw
from `pdfLoad`, `file.save()` or `user.save()` lands in the catch block
(`caughtError`), leaving whatever writes already happened in place. -/
def uploadHandler (env : StoreEnv) (store : Store) (userId : Nat)
    (staged : StagedFile) : UploadResult × Store :=
  match store.findUser userId with
  | none => (UploadResult.userNotFound, store)
  | some user =>
    match pdfLoad staged.bytes with
    | Except.error msg => (UploadResult.caughtError msg, store)
    | Except.ok pageCount =>
      let fileRec : FileRecord :=
        { filename := staged.filename
          originalname := staged.originalname
          mimetype := staged.mimetype
          size := staged.size
          pageCount := some pageCount
          uploadedBy := userId }
      if env.fileSaveOk then
        let fid := store.nextFileId
        let store1 : Store :=
          { store with files := store.files ++ [(fid, fileRec)], nextFileId := fid + 1 }
        let user1 : UserRecord := { user with files := user.files ++ [fid] }
        if env.userSaveOk then
          (UploadResult.created fid fileRec, store1.saveUser userId user1)
        else
          (UploadResult.caughtError env.userSaveMsg, store1)
      else
        (UploadResult.caughtError env.fileSaveMsg, store)

/-- Full POST /files processing: multer middleware first (no staged file and
no handler run on a multer error; a request without a file part reaches the
handler with `req.file` undefined), then the handler. -/
def postFiles (env : StoreEnv) (now : Nat) (store : Store) (userId : Nat)
    (upload : Option IncomingFile) : PostFilesResponse × Store :=
  match upload with
  | none => (PostFilesResponse.handler UploadResult.noFile, store)
  | some f =>
    match multerProcess now f with
    | Except.error msg => (PostFilesResponse.multerReject msg, store)
    | Except.ok staged =>
      let rs := uploadHandler env store userId staged
      (PostFilesResponse.handler rs.1, rs.2)

/-- Result of JavaScript `parseInt`: an integer or NaN. -/
inductive JsNum where
  | nan
  | int (v : Int)
deriving DecidableEq

/-- Numeric value of a hexadecimal digit character, if any. -/
def hexDigitVal (c : Char) : Option Nat :=
  if 48 ≤ c.toNat ∧ c.toNat ≤ 57 then some (c.toNat - 48)
  else if 97 ≤ c.toNat ∧ c.toNat ≤ 102 then some (c.toNat - 97 + 10)
  else if 65 ≤ c.toNat ∧ c.toNat ≤ 70 then some (c.toNat - 65 + 10)
  else none

/-- Longest prefix of digits valid in the given base, as digit values. -/
def takeDigits (base : Nat) : List Char → List Nat
  | [] => []
  | c :: cs =>
    match hexDigitVal c with
    | some v => if v < base then v :: takeDigits base cs else []
    | none => []

/-- JavaScript `parseInt(s)` with no radix argument: skip whitespace, read an
optional sign, detect a `0x`/`0X` hex prefix, then take the longest valid
digit prefix; NaN when no digit is read. -/
def jsParseIntStr (s : String) : JsNum :=
  let cs0 := s.toList.dropWhile (fun c => c == ' ' || c == '\t' || c == '\n' || c == '\r')
  let sc : Int × List Char :=
    match cs0 with
    | '-' :: rest => (-1, rest)
    | '+' :: rest => (1, rest)
    | _ => (1, cs0)
  let bc : Nat × List Char :=
    match sc.2 with
    | '0' :: 'x' :: rest => (16, rest)
    | '0' :: 'X' :: rest => (16, rest)
    | _ => (10, sc.2)
  let ds := takeDigits bc.1 bc.2
  if ds.isEmpty then JsNum.nan
  else JsNum.int (sc.1 * (ds.foldl (fun a d => a * bc.1 + d) 0 : Nat))

/-- `parseInt(req.query.x)`: an absent query parameter is `undefined`, and
`parseInt(undefined)` is NaN. -/
def jsParseInt (q : Option String) : JsNum :=
  match q with
  | none => JsNum.nan
  | some s => jsParseIntStr s

/-- JavaScript `v || d` on a `parseInt` result: NaN and 0 are falsy and give
the default, every other integer (negative ones included) is kept. -/
def jsOr (v : JsNum) (d : Int) : Int :=
  match v with
  | JsNum.nan => d
  | JsNum.int v => if v = 0 then d else v

/-- `const page = parseInt(req.query.page) || 1` (part_001 line 224). -/
def parsePage (q : Option String) : Int := jsOr (jsParseInt q) 1

/-- `const limit = parseInt(req.query.limit) || 10` (part_001 line 225). -/
def parseLimit (q : Option String) : Int := jsOr (jsParseInt q) 10

/-- JavaScript `Math.ceil(n / l)` for a natural `n` and a nonzero integer
`l`; the `l = 0` branch (Infinity/NaN in JS) is unreachable in the route
because the substituted limit is never zero. -/
def mathCeilDiv (n : Nat) (l : Int) : Int :=
  if 0 < l then Int.ediv ((n : Int) + l - 1) l
  else if l < 0 then -(Int.ediv (n : Int) (-l))
  else 0

/-- Response body of the paginated listing (part_001 lines 236-241). -/
structure Listing where
  files : List (Nat × FileRecord)
  totalPages : Int
  total : Nat
  currentPage : Int
deriving DecidableEq

/-- Mongo cursor `skip`/`limit` applied to the matching documents: the
server rejects a negative skip; `limit(0)` means no limit and a negative
limit behaves as its absolute value. -/
def mongoWindow (docs : List (Nat × FileRecord)) (skip limit : Int) :
    Except String (List (Nat × FileRecord)) :=
  if skip < 0 then Except.error "BSON field skip value must be non-negative"
  else if limit = 0 then Except.ok (docs.drop skip.toNat)
  else Except.ok ((docs.drop skip.toNat).take limit.natAbs)

/-- The documents the query `File.find({ uploadedBy: userId })` matches, in
store (insertion) order. -/
def userDocs (store : Store) (userId : Nat) : List (Nat × FileRecord) :=
  store.files.filter (fun p => p.2.uploadedBy == userId)

/-- `router.get('/user/:userId')` try-block (part_001 lines 221-241): parse
page and limit with default substitution, window the user's files with
`skip = (page-1)*limit` and `limit`, count them, and report
`Math.ceil(total/limit)` pages; a store error lands in the catch (500). -/
def getUserFiles (store : Store) (userId : Nat) (pageQ limitQ : Option String) :
    Except String Listing :=
  let page := parsePage pageQ
  let limit := parseLimit limitQ
  let skip := (page - 1) * limit
  let matching := userDocs store userId
  match mongoWindow matching skip limit with
  | Except.error e => Except.error e
  | Except.ok files =>
    Except.ok
      { files := files
        totalPages := mathCeilDiv matching.length limit
        total := matching.length
        currentPage := page }

/-- A Mongo ObjectId literal: 24 hexadecimal characters; anything else makes
`findById` throw a CastError.  The numeric value stands for the id. -/
def parseObjectId (s : String) : Option Nat :=
  if s.length = 24 ∧ s.toList.all (fun c => (hexDigitVal c).isSome) then
    some (s.toList.foldl (fun a c => a * 16 + (hexDigitVal c).getD 0) 0)
  else none

/-- Outcome of `router.get('/:id')` (part_001 lines 165-179): a CastError on
an invalid id reaches the catch block (500), a missing file gives 404, and a
found file is returned with the owner's name populated. -/
inductive GetFileResult where
  | serverError (msg : String)
  | notFound
  | found (id : Nat) (rec : FileRecord) (ownerName : Option String)
deriving DecidableEq

/-- `router.get('/:id')` handler body. -/
def getFileById (store : Store) (idStr : String) : GetFileResult :=
  match parseObjectId idStr with
  | none => GetFileResult.serverError ("Cast to ObjectId failed for value " ++ idStr)
  | some fid =>
    match store.files.find? (fun p => p.1 == fid) with
    | none => GetFileResult.notFound
    | some p => GetFileResult.found p.1 p.2 ((store.findUser p.2.uploadedBy).map (fun u => u.name))

/-- `router.get('/user/:userId')` as dispatched with a raw path segment:
`File.find({uploadedBy: ...})` throws a CastError on an invalid ObjectId,
reaching the catch block. -/
def getUserFilesRoute (store : Store) (uidStr : String) (pageQ limitQ : Option String) :
    Except String Listing :=
  match parseObjectId uidStr with
  | none => Except.error ("Cast to ObjectId failed for value " ++ uidStr)
  | some uid => getUserFiles store uid pageQ limitQ

/-- One segment of an Express route pattern: a literal or a `:param`. -/
inductive Seg where
  | lit (s : String)
  | par
deriving DecidableEq

/-- Express path matching for one route: every pattern segment must match
the corresponding path segment; `:param` segments capture their value. -/
def matchSegs : List Seg → List String → Option (List String)
  | [], [] => some []
  | Seg.lit s :: ps, x :: xs => if x = s then matchSegs ps xs else none
  | Seg.par :: ps, x :: xs => (matchSegs ps xs).map (fun vs => x :: vs)
  | _, _ => none

/-- The GET routes of the files router in registration order:
`/:id` (line 165), `/user/:userId` (line 221), `/all` (line 263). -/
inductive FilesGetRoute where
  | byIdRoute
  | userRoute
  | allRoute
deriving DecidableEq

/-- Registration order of the GET routes, as in the source. -/
def filesGetRoutes : List (List Seg × FilesGetRoute) :=
  [([Seg.par], FilesGetRoute.byIdRoute),
   ([Seg.lit "user", Seg.par], FilesGetRoute.userRoute),
   ([Seg.lit "all"], FilesGetRoute.allRoute)]

/-- Express dispatch: try the registered routes in order, first match wins. -/
def dispatchRoutes {α : Type} : List (List Seg × α) → List String → Option (α × List String)
  | [], _ => none
  | (pat, h) :: rest, segs =>
    match matchSegs pat segs with
    | some vs => some (h, vs)
    | none => dispatchRoutes rest segs

/-- Response of a GET request below /files, by which handler served it. -/
inductive FilesGetResponse where
  | byId (r : GetFileResult)
  | userListing (r : Except String Listing)
  | allFiles (files : List (Nat × FileRecord))
  | noRoute

/-- Whether a response came from the `router.get('/all')` handler. -/
def FilesGetResponse.isAllFiles : FilesGetResponse → Bool
  | FilesGetResponse.allFiles _ => true
  | _ => false

/-- A GET request below /files: dispatch the path segments over the routes
in registration order and run the matched handler. -/
def filesRouterGet (store : Store) (segs : List String)
    (pageQ limitQ : Option String) : FilesGetResponse :=
  match dispatchRoutes filesGetRoutes segs with
  | some (FilesGetRoute.byIdRoute, [id]) => FilesGetResponse.byId (getFileById store id)
  | some (FilesGetRoute.userRoute, [uid]) =>
      FilesGetResponse.userListing (getUserFilesRoute store uid pageQ limitQ)
  | some (FilesGetRoute.allRoute, _) => FilesGetResponse.allFiles store.files
  | _ => FilesGetResponse.noRoute

/-! Concrete fixtures used by the witness theorems. -/

def aliceUser : UserRecord := { name := "Alice", files := [] }

def demoStore : Store := { users := [(0, aliceUser)], files := [], nextFileId := 0 }

def emptyStore : Store := { users := [], files := [], nextFileId := 0 }

def envAllOk : StoreEnv :=
  { fileSaveOk := true, fileSaveMsg := "file save failed"
    userSaveOk := true, userSaveMsg := "user save failed" }

def envUserSaveFails : StoreEnv :=
  { fileSaveOk := true, fileSaveMsg := "file save failed"
    userSaveOk := false, userSaveMsg := "user save failed" }

def pdfUpload : IncomingFile :=
  { originalname := "a.pdf", mimetype := "application/pdf", size := 1024
    bytes := FileBytes.pdf 1 }

def stagedPdf : StagedFile :=
  { filename := "5-a.pdf", originalname := "a.pdf", mimetype := "application/pdf"
    size := 1024, bytes := FileBytes.pdf 1 }

def brokenUpload : IncomingFile :=
  { originalname := "b.pdf", mimetype := "application/pdf", size := 2048
    bytes := FileBytes.malformed "Failed to parse PDF document" }

def stagedBroken : StagedFile :=
  { filename := "5-b.pdf", originalname := "b.pdf", mimetype := "application/pdf"
    size := 2048, bytes := FileBytes.malformed "Failed to parse PDF document" }

def plainTextUpload : IncomingFile :=
  { originalname := "c.txt", mimetype := "text/plain", size := 10
    bytes := FileBytes.malformed "not a pdf" }

/-! Claim theorems. -/

/-- C7: an upload whose declared content-type is not exactly
`application/pdf` is rejected by the multer fileFilter with the
"Only PDF files are allowed" error before the handler runs: the store is
returned unchanged (no Owner or Document mutation) and `multerProcess`
yields no staged file, so no byte is persisted. -/
theorem upload_rejected_for_bad_mime (env : StoreEnv) (now : Nat) (store : Store)
    (userId : Nat) (f : IncomingFile) (h : f.mimetype ≠ allowedMimeType) :
    postFiles env now store userId (some f) =
      (PostFilesResponse.multerReject "Only PDF files are allowed", store) ∧
    multerProcess now f = Except.error "Only PDF files are allowed" := by
  have hm : multerProcess now f = Except.error "Only PDF files are allowed" := by
    simp [multerProcess, fileFilter, h]
  exact ⟨by simp [postFiles, hm], hm⟩

/-- Witness for C7 at a concrete text/plain upload. -/
theorem upload_rejected_for_bad_mime_witness :
    postFiles envAllOk 5 demoStore 0 (some plainTextUpload) =
      (PostFilesResponse.multerReject "Only PDF files are allowed", demoStore) ∧
    multerProcess 5 plainTextUpload = Except.error "Only PDF files are allowed" :=
  upload_rejected_for_bad_mime envAllOk 5 demoStore 0 plainTextUpload (by decide)

/-- C5: when the staged upload's owner id resolves to no Owner record, the
handler answers `userNotFound` (404, distinct from the 400 parse/validation
answers) and the store is returned unchanged: no Document is created and no
Owner is mutated. -/
theorem owner_not_found_no_writes (env : StoreEnv) (now : Nat) (store : Store)
    (userId : Nat) (f : IncomingFile) (staged : StagedFile)
    (hm : multerProcess now f = Except.ok staged)
    (hu : store.findUser userId = none) :
    postFiles env now store userId (some f) =
      (PostFilesResponse.handler UploadResult.userNotFound, store) := by
  simp [postFiles, hm, uploadHandler, hu]

/-- Witness for C5: a store with no users. -/
theorem owner_not_found_no_writes_witness :
    postFiles envAllOk 5 emptyStore 0 (some pdfUpload) =
      (PostFilesResponse.handler UploadResult.userNotFound, emptyStore) :=
  owner_not_found_no_writes envAllOk 5 emptyStore 0 pdfUpload stagedPdf rfl rfl

/-- C6: when the staged payload fails structural parsing, the ingestion does
not proceed: the store is returned unchanged (no Document created, no Owner
mutated) and the caller sees the catch-block error, whose HTTP status equals
the status of the handler's validation failure (400). -/
theorem parse_failure_no_writes (env : StoreEnv) (now : Nat) (store : Store)
    (userId : Nat) (f : IncomingFile) (staged : StagedFile) (u : UserRecord)
    (msg : String)
    (hm : multerProcess now f = Except.ok staged)
    (hu : store.findUser userId = some u)
    (hp : pdfLoad staged.bytes = Except.error msg) :
    postFiles env now store userId (some f) =
      (PostFilesResponse.handler (UploadResult.caughtError msg), store) ∧
    (PostFilesResponse.handler (UploadResult.caughtError msg)).status =
      (PostFilesResponse.handler UploadResult.noFile).status := by
  exact ⟨by simp [postFiles, hm, uploadHandler, hu, hp], rfl⟩

/-- Witness for C6 at a concrete malformed upload. -/
theorem parse_failure_no_writes_witness :
    postFiles envAllOk 5 demoStore 0 (some brokenUpload) =
      (PostFilesResponse.handler
        (UploadResult.caughtError "Failed to parse PDF document"), demoStore) ∧
    (PostFilesResponse.handler
        (UploadResult.caughtError "Failed to parse PDF document")).status =
      (PostFilesResponse.handler UploadResult.noFile).status :=
  parse_failure_no_writes envAllOk 5 demoStore 0 brokenUpload stagedBroken
    aliceUser "Failed to parse PDF document" rfl rfl rfl

/-- `saveUser` only touches the users collection. -/
lemma saveUser_files (s : Store) (uid : Nat) (u : UserRecord) :
    (s.saveUser uid u).files = s.files := rfl

/-- Any file record in the store after the upload handler ran was either
there before or carries a page count. -/
lemma uploadHandler_files_pagecount (env : StoreEnv) (store : Store)
    (userId : Nat) (staged : StagedFile) :
    ∀ p ∈ (uploadHandler env store userId staged).2.files,
      p ∈ store.files ∨ ∃ n, p.2.pageCount = some n := by
  unfold uploadHandler
  cases hu : store.findUser userId with
  | none => intro p hp; exact Or.inl hp
  | some user =>
    cases hpdf : pdfLoad staged.bytes with
    | error msg => intro p hp; exact Or.inl hp
    | ok pc =>
      simp only
      cases hfs : env.fileSaveOk with
      | false => simp only [Bool.false_eq_true, if_false]; intro p hp; exact Or.inl hp
      | true =>
        simp only [if_true]
        cases hus : env.userSaveOk with
        | false =>
          simp only [Bool.false_eq_true, if_false]
          intro p hp
          rcases List.mem_append.1 hp with h | h
          · exact Or.inl h
          · rcases List.mem_singleton.1 h with rfl
            exact Or.inr ⟨pc, rfl⟩
        | true =>
          simp only [if_true, saveUser_files]
          intro p hp
          rcases List.mem_append.1 hp with h | h
          · exact Or.inl h
          · rcases List.mem_singleton.1 h with rfl
            exact Or.inr ⟨pc, rfl⟩

/-- C10: every Document record created through the POST /files pipeline has
a page count: any file in the store after a request was either already there
or has `pageCount = some n`, because the structural inspection runs before
`new File(...)` and its failure aborts the pipeline. -/
theorem pipeline_docs_have_pagecount (env : StoreEnv) (now : Nat) (store : Store)
    (userId : Nat) (up : Option IncomingFile) (resp : PostFilesResponse)
    (store' : Store)
    (h : postFiles env now store userId up = (resp, store')) :
    ∀ p ∈ store'.files, p ∈ store.files ∨ ∃ n, p.2.pageCount = some n := by
  cases up with
  | none =>
    simp only [postFiles] at h
    injection h with h1 h2
    subst h2
    intro p hp; exact Or.inl hp
  | some f =>
    simp only [postFiles] at h
    cases hm : multerProcess now f with
    | error msg =>
      rw [hm] at h
      injection h with h1 h2
      subst h2
      intro p hp; exact Or.inl hp
    | ok staged =>
      rw [hm] at h
      injection h with h1 h2
      subst h2
      exact uploadHandler_files_pagecount env store userId staged

/-- Witness for C10 at a concrete successful run and the concrete record it
stores. -/
theorem pipeline_docs_have_pagecount_witness :
    ((0, { filename := "5-a.pdf", originalname := "a.pdf"
           mimetype := "application/pdf", size := 1024, pageCount := some 1
           uploadedBy := 0 }) : Nat × FileRecord) ∈ demoStore.files ∨
    ∃ n, (({ filename := "5-a.pdf", originalname := "a.pdf"
             mimetype := "application/pdf", size := 1024, pageCount := some 1
             uploadedBy := 0 } : FileRecord)).pageCount = some n :=
  pipeline_docs_have_pagecount envAllOk 5 demoStore 0 (some pdfUpload)
    (postFiles envAllOk 5 demoStore 0 (some pdfUpload)).1
    (postFiles envAllOk 5 demoStore 0 (some pdfUpload)).2 rfl
    (0, { filename := "5-a.pdf", originalname := "a.pdf"
          mimetype := "application/pdf", size := 1024, pageCount := some 1
          uploadedBy := 0 })
    (by decide)

/-- Store well-formedness: every file id referenced from a user's list was
assigned by the id counter, hence is below `nextFileId`.  This is the
freshness guarantee new ObjectIds give in the real store. -/
def Store.FreshIds (s : Store) : Prop :=
  ∀ p ∈ s.users, ∀ fid ∈ p.2.files, fid < s.nextFileId

/-- After updating the entry for `uid` in an association list that contains
one, `find?` returns the updated entry. -/
lemma find?_beq_update (l : List (Nat × UserRecord)) (uid : Nat) (u1 : UserRecord)
    (h : (l.find? (fun p => p.1 == uid)).isSome) :
    (l.map (fun p => if p.1 == uid then (uid, u1) else p)).find?
      (fun p => p.1 == uid) = some (uid, u1) := by
  induction l with
  | nil => simp at h
  | cons a t ih =>
    cases hab : (a.1 == uid) with
    | true =>
      have hfa : (if (a.1 == uid) = true then (uid, u1) else a) = (uid, u1) :=
        if_pos hab
      simp only [List.map_cons, hfa, List.find?_cons, Nat.beq_refl, beq_self_eq_true]
    | false =>
      simp only [List.find?_cons, hab] at h
      simp only [List.map_cons, hab, Bool.false_eq_true, if_false, List.find?_cons]
      exact ih h

/-- C2: when the POST /files pipeline answers `created fid rec`, the new
Document's owner reference is the requested user id, and that user's
persisted file list afterwards contains `fid` exactly once (given that all
ids already referenced by users are older than the freshly assigned one). -/
theorem upload_success_owner_link (env : StoreEnv) (now : Nat) (store : Store)
    (userId : Nat) (f : IncomingFile) (fid : Nat) (rec : FileRecord)
    (store' : Store)
    (hfresh : store.FreshIds)
    (h : postFiles env now store userId (some f) =
      (PostFilesResponse.handler (UploadResult.created fid rec), store')) :
    rec.uploadedBy = userId ∧
    ∃ u', store'.findUser userId = some u' ∧ u'.files.count fid = 1 := by
  simp only [postFiles] at h
  cases hm : multerProcess now f with
  | error msg =>
    rw [hm] at h
    injection h with h1 h2
    exact absurd h1 (by simp)
  | ok staged =>
    rw [hm] at h
    injection h with h1 h2
    unfold uploadHandler at h1 h2
    cases hu : store.findUser userId with
    | none =>
      rw [hu] at h1
      exact absurd h1 (by simp)
    | some u =>
      rw [hu] at h1 h2
      cases hpdf : pdfLoad staged.bytes with
      | error msg =>
        rw [hpdf] at h1
        exact absurd h1 (by simp)
      | ok pc =>
        rw [hpdf] at h1 h2
        simp only at h1 h2
        cases hfs : env.fileSaveOk with
        | false =>
          rw [hfs] at h1
          exact absurd h1 (by simp)
        | true =>
          rw [hfs] at h1 h2
          simp only [if_true] at h1 h2
          cases hus : env.userSaveOk with
          | false =>
            rw [hus] at h1
            exact absurd h1 (by simp)
          | true =>
            rw [hus] at h1 h2
            simp only [if_true] at h1 h2
            injection h1 with h1
            injection h1 with hfid hrec
            subst hfid
            subst hrec
            refine ⟨rfl, { u with files := u.files ++ [store.nextFileId] }, ?_, ?_⟩
            · -- the saved user record is found back after the update
              obtain ⟨p0, hp0, hp0e⟩ := Option.map_eq_some'.mp hu
              subst h2
              unfold Store.findUser Store.saveUser
              simp only
              rw [find?_beq_update _ _ _ (by rw [hp0]; rfl)]
              rfl
            · -- its file list holds the fresh id exactly once
              obtain ⟨p0, hp0, hp0e⟩ := Option.map_eq_some'.mp hu
              have hmem : p0 ∈ store.users := List.mem_of_find?_eq_some hp0
              have hnot : store.nextFileId ∉ u.files := by
                intro hin
                have := hfresh p0 hmem store.nextFileId (by rw [hp0e]; exact hin)
                exact absurd this (lt_irrefl _)
              simp only [List.count_append]
              rw [List.count_eq_zero.mpr hnot]
              simp

/-- Witness for C2 at a concrete successful upload. -/
theorem upload_success_owner_link_witness :
    ({ filename := "5-a.pdf", originalname := "a.pdf"
       mimetype := "application/pdf", size := 1024, pageCount := some 1
       uploadedBy := 0 } : FileRecord).uploadedBy = 0 ∧
    ∃ u', (postFiles envAllOk 5 demoStore 0 (some pdfUpload)).2.findUser 0 = some u' ∧
      u'.files.count 0 = 1 :=
  upload_success_owner_link envAllOk 5 demoStore 0 pdfUpload 0
    { filename := "5-a.pdf", originalname := "a.pdf"
      mimetype := "application/pdf", size := 1024, pageCount := some 1
      uploadedBy := 0 }
    (postFiles envAllOk 5 demoStore 0 (some pdfUpload)).2
    (by intro p hp fid hfid; simp [demoStore, aliceUser] at hp; subst hp; simp at hfid)
    rfl

/-- C1 counterexample: in a run where the Document write (step 2) succeeded
and the owner-list save (step 3) failed, the response status is 400 — the
generic catch-all status, the very same status a structural-parse failure
receives and a caller-error (4xx) status, not an internal (5xx) one.  So the
step-3 failure, though propagated, is NOT surfaced as an internal error
distinct from validation and parse errors, refuting the claim as stated.
First conjunct: status of the step-3-failure run; second: step 2 did succeed
there (the Document record is in the store afterwards); third: a parse
failure gets the identical status; fourth: 400 is below the internal 5xx
class. -/
theorem step3_failure_not_internal_counterexample :
    (postFiles envUserSaveFails 5 demoStore 0 (some pdfUpload)).1.status = 400 ∧
    ((0, { filename := "5-a.pdf", originalname := "a.pdf"
           mimetype := "application/pdf", size := 1024, pageCount := some 1
           uploadedBy := 0 }) : Nat × FileRecord) ∈
      (postFiles envUserSaveFails 5 demoStore 0 (some pdfUpload)).2.files ∧
    (postFiles envAllOk 5 demoStore 0 (some brokenUpload)).1.status = 400 ∧
    400 < 500 := by
  refine ⟨rfl, ?_, rfl, by decide⟩
  simp [postFiles, multerProcess, fileFilter, maxFileSize, allowedMimeType,
    uploadHandler, demoStore, aliceUser, pdfUpload, envUserSaveFails,
    Store.findUser, pdfLoad]
  decide

/-- C1 amended: when step 2 (Document save) succeeds and step 3 (Owner list
save) fails, the handler propagates the step-3 error to the caller through
the catch block — an error response carrying the save failure's message,
never a success — and does not roll back step 2: the resulting store keeps
the users collection untouched and retains the freshly created Document
record.  The response status is 400, the same generic catch-all used for
parse failures, so the failure is distinguishable only by its message, not
by a dedicated internal error class. -/
theorem step3_failure_propagated (env : StoreEnv) (now : Nat) (store : Store)
    (userId : Nat) (f : IncomingFile) (staged : StagedFile) (u : UserRecord)
    (pc : Nat)
    (hm : multerProcess now f = Except.ok staged)
    (hu : store.findUser userId = some u)
    (hp : pdfLoad staged.bytes = Except.ok pc)
    (hf : env.fileSaveOk = true)
    (hs : env.userSaveOk = false) :
    postFiles env now store userId (some f) =
      (PostFilesResponse.handler (UploadResult.caughtError env.userSaveMsg),
       { store with
          files := store.files ++ [(store.nextFileId,
            { filename := staged.filename, originalname := staged.originalname
              mimetype := staged.mimetype, size := staged.size
              pageCount := some pc, uploadedBy := userId })]
          nextFileId := store.nextFileId + 1 }) ∧
    (PostFilesResponse.handler (UploadResult.caughtError env.userSaveMsg)).status = 400 := by
  exact ⟨by simp [postFiles, hm, uploadHandler, hu, hp, hf, hs], rfl⟩

/-- Witness for the amended C1 at a concrete run. -/
theorem step3_failure_propagated_witness :
    postFiles envUserSaveFails 5 demoStore 0 (some pdfUpload) =
      (PostFilesResponse.handler
         (UploadResult.caughtError envUserSaveFails.userSaveMsg),
       { demoStore with
          files := demoStore.files ++ [(demoStore.nextFileId,
            { filename := stagedPdf.filename, originalname := stagedPdf.originalname
              mimetype := stagedPdf.mimetype, size := stagedPdf.size
              pageCount := some 1, uploadedBy := 0 })]
          nextFileId := demoStore.nextFileId + 1 }) ∧
    (PostFilesResponse.handler
       (UploadResult.caughtError envUserSaveFails.userSaveMsg)).status = 400 :=
  step3_failure_propagated envUserSaveFails 5 demoStore 0 pdfUpload stagedPdf
    aliceUser 1 rfl rfl rfl rfl rfl

/-- C4 counterexample: `parseInt(x) || default` does NOT replace negative
values: a page parameter of "-2" parses to -2 (non-positive, yet kept, below
the claimed replacement value 1), and a limit of "-3" parses to -3 (invalid
per the spec's "positive integer", yet kept).  Only NaN and 0 are falsy. -/
theorem query_defaults_counterexample :
    parsePage (some "-2") = -2 ∧ parsePage (some "-2") < 1 ∧
    parseLimit (some "-3") = -3 ∧ parseLimit (some "-3") < 1 := by
  refine ⟨by decide, by decide, by decide, by decide⟩

/-- C4 amended: parsing of page and limit is total and never an error; a
page that is omitted, unparseable (NaN) or parses to 0 is replaced by 1 and
a limit likewise by 10, but any nonzero parsed value — negative ones
included — is kept; the substituted limit is never 0 (it is positive or
negative), so `Math.ceil(total/limit)` never divides by zero. -/
theorem query_defaults_amended (pq lq : Option String) :
    ((jsParseInt pq = JsNum.nan ∨ jsParseInt pq = JsNum.int 0) → parsePage pq = 1) ∧
    ((jsParseInt lq = JsNum.nan ∨ jsParseInt lq = JsNum.int 0) → parseLimit lq = 10) ∧
    (∀ v : Int, jsParseInt pq = JsNum.int v → v ≠ 0 → parsePage pq = v) ∧
    (0 < parseLimit lq ∨ parseLimit lq < 0) := by
  refine ⟨?_, ?_, ?_, ?_⟩
  · rintro (h | h) <;> simp [parsePage, jsOr, h]
  · rintro (h | h) <;> simp [parseLimit, jsOr, h]
  · intro v hv hne
    simp [parsePage, jsOr, hv, hne]
  · unfold parseLimit jsOr
    cases hv : jsParseInt lq with
    | nan => exact Or.inl (by decide)
    | int v =>
      by_cases h0 : v = 0
      · simp [h0]
      · simp only [h0, if_false]
        omega

/-- Witness for the amended C4 at concrete query strings. -/
theorem query_defaults_amended_witness :
    parsePage (some "abc") = 1 ∧ parseLimit (some "0") = 10 ∧
    parsePage (some "-7") = -7 ∧
    (0 < parseLimit (some "5") ∨ parseLimit (some "5") < 0) :=
  ⟨(query_defaults_amended (some "abc") none).1 (Or.inl (by decide)),
   (query_defaults_amended none (some "0")).2.1 (Or.inr (by decide)),
   (query_defaults_amended (some "-7") none).2.2.1 (-7) (by decide) (by decide),
   (query_defaults_amended none (some "5")).2.2.2⟩

/-- Euclidean division of natural casts is the cast of natural division. -/
lemma ediv_natCast (a b : Nat) :
    Int.ediv (a : Int) (b : Int) = ((a / b : Nat) : Int) := by
  show (a : Int) / (b : Int) = ((a / b : Nat) : Int)
  exact (Int.ofNat_ediv a b).symm

/-- `Math.ceil(N / P)` for naturals with positive `P` is the rounded-up
natural division `(N + P - 1) / P`. -/
lemma mathCeilDiv_natCast (N P : Nat) (hP : 0 < P) :
    mathCeilDiv N (P : Int) = (((N + P - 1) / P : Nat) : Int) := by
  unfold mathCeilDiv
  have hPpos : (0 : Int) < (P : Int) := by exact_mod_cast hP
  rw [if_pos hPpos]
  have h1 : (N : Int) + (P : Int) - 1 = ((N + P - 1 : Nat) : Int) := by omega
  rw [h1, ediv_natCast]

/-- Rounded-up division, case split on the remainder. -/
lemma ceil_div_spec (N P : Nat) (hP : 0 < P) :
    (N + P - 1) / P = if N % P = 0 then N / P else N / P + 1 := by
  have hqr : P * (N / P) + N % P = N := Nat.div_add_mod N P
  have hrP : N % P < P := Nat.mod_lt _ hP
  by_cases h0 : N % P = 0
  · rw [if_pos h0]
    have he : N + P - 1 = P * (N / P) + (P - 1) := by omega
    rw [he, Nat.mul_add_div hP]
    have hz : (P - 1) / P = 0 := Nat.div_eq_of_lt (by omega)
    omega
  · rw [if_neg h0]
    have hms : P * (N / P + 1) = P * (N / P) + P := Nat.mul_succ P (N / P)
    have he : N + P - 1 = P * (N / P + 1) + (N % P - 1) := by omega
    rw [he, Nat.mul_add_div hP]
    have hz : (N % P - 1) / P = 0 := Nat.div_eq_of_lt (by omega)
    omega

/-- Arithmetic core of the pagination claim: on the last page the window
holds `N mod P` documents (`P` when the remainder is zero and `N > 0`), and
past the last page the skip reaches past all `N` documents. -/
lemma window_cases (N P page : Nat) (hP : 0 < P) (hpage : 1 ≤ page) :
    (page = (N + P - 1) / P →
      min P (N - (page - 1) * P) = if N % P = 0 ∧ 0 < N then P else N % P) ∧
    ((N + P - 1) / P < page → N ≤ (page - 1) * P) := by
  have hqr : P * (N / P) + N % P = N := Nat.div_add_mod N P
  have hrP : N % P < P := Nat.mod_lt _ hP
  have hceil := ceil_div_spec N P hP
  constructor
  · intro hpg
    by_cases h0 : N % P = 0
    · rw [hceil, if_pos h0] at hpg
      have hq1 : 1 ≤ N / P := by omega
      have hm1 : P * 1 ≤ P * (N / P) := Nat.mul_le_mul_left P hq1
      have hN : 0 < N := by omega
      rw [if_pos ⟨h0, hN⟩, hpg]
      have hsub : (N / P - 1) * P = (N / P) * P - P := Nat.sub_one_mul (N / P) P
      have hcomm : (N / P) * P = P * (N / P) := Nat.mul_comm (N / P) P
      omega
    · rw [hceil, if_neg h0] at hpg
      rw [if_neg (fun hc => h0 hc.1), hpg]
      have hs : N / P + 1 - 1 = N / P := by omega
      rw [hs]
      have hcomm : (N / P) * P = P * (N / P) := Nat.mul_comm (N / P) P
      omega
  · intro hlt
    have hcp : (N + P - 1) / P ≤ page - 1 := by omega
    have hmul : ((N + P - 1) / P) * P ≤ (page - 1) * P := Nat.mul_le_mul_right P hcp
    have hceilP : N ≤ ((N + P - 1) / P) * P := by
      rw [hceil]
      by_cases h0 : N % P = 0
      · rw [if_pos h0]
        have hcomm : (N / P) * P = P * (N / P) := Nat.mul_comm (N / P) P
        omega
      · rw [if_neg h0]
        have hms : (N / P + 1) * P = (N / P) * P + P := Nat.succ_mul (N / P) P
        have hcomm : (N / P) * P = P * (N / P) := Nat.mul_comm (N / P) P
        omega
    omega

/-- Evaluation of the listing route when the parsed page and limit are
positive naturals: the window is `skip = (page-1)*P`, `take = P` over the
user's documents, with exact totals. -/
lemma getUserFiles_eval (store : Store) (userId : Nat) (pageQ limitQ : Option String)
    (page P : Nat)
    (hp : parsePage pageQ = (page : Int)) (hl : parseLimit limitQ = (P : Int))
    (hP : 0 < P) (hpage : 1 ≤ page) :
    getUserFiles store userId pageQ limitQ = Except.ok
      { files := ((userDocs store userId).drop ((page - 1) * P)).take P
        totalPages := ((((userDocs store userId).length + P - 1) / P : Nat) : Int)
        total := (userDocs store userId).length
        currentPage := (page : Int) } := by
  have hskip : ((page : Int) - 1) * (P : Int) = (((page - 1) * P : Nat) : Int) := by
    have h1 : (page : Int) - 1 = ((page - 1 : Nat) : Int) := by omega
    rw [h1, ← Nat.cast_mul]
  have h2 : ¬((((page - 1) * P : Nat) : Int) < 0) :=
    not_lt.mpr (Int.natCast_nonneg _)
  have h3 : ¬((P : Int) = 0) := by
    exact_mod_cast Nat.pos_iff_ne_zero.mp hP
  simp only [getUserFiles, mongoWindow, hp, hl, hskip, if_neg h2, if_neg h3,
    Int.toNat_natCast, Int.natAbs_ofNat, mathCeilDiv_natCast _ _ hP]

/-- C3: with a positive parsed page size `P` and a 1-based parsed page, the
listing returns the window `skip = (page-1)*P`, `take = P` of the owner's
documents together with `total = N` and `totalPages = ceil(N/P)`; on the
last page (`page = ceil(N/P)`) the window holds `N mod P` documents (`P`
when `N mod P = 0` and `N > 0`), and past the last page it is empty while
the totals are still reported unchanged. -/
theorem listing_pagination (store : Store) (userId : Nat)
    (pageQ limitQ : Option String) (page P : Nat)
    (hp : parsePage pageQ = (page : Int)) (hl : parseLimit limitQ = (P : Int))
    (hP : 0 < P) (hpage : 1 ≤ page) :
    getUserFiles store userId pageQ limitQ = Except.ok
      { files := ((userDocs store userId).drop ((page - 1) * P)).take P
        totalPages := ((((userDocs store userId).length + P - 1) / P : Nat) : Int)
        total := (userDocs store userId).length
        currentPage := (page : Int) } ∧
    (page = ((userDocs store userId).length + P - 1) / P →
      (((userDocs store userId).drop ((page - 1) * P)).take P).length =
        if (userDocs store userId).length % P = 0 ∧ 0 < (userDocs store userId).length
        then P
        else (userDocs store userId).length % P) ∧
    (((userDocs store userId).length + P - 1) / P < page →
      ((userDocs store userId).drop ((page - 1) * P)).take P = []) := by
  have hwin := window_cases (userDocs store userId).length P page hP hpage
  refine ⟨getUserFiles_eval store userId pageQ limitQ page P hp hl hP hpage, ?_, ?_⟩
  · intro hpg
    rw [List.length_take, List.length_drop]
    exact hwin.1 hpg
  · intro hlt
    rw [List.drop_eq_nil_of_le (hwin.2 hlt), List.take_nil]

/-- A stored document fixture for the listing witnesses. -/
def sampleDoc : FileRecord :=
  { filename := "1-d.pdf", originalname := "d.pdf", mimetype := "application/pdf"
    size := 512, pageCount := some 1, uploadedBy := 0 }

/-- A store holding three documents of one owner, ids in creation order. -/
def listStore : Store :=
  { users := [(0, { name := "Alice", files := [0, 1, 2] })]
    files := [(0, sampleDoc), (1, sampleDoc), (2, sampleDoc)]
    nextFileId := 3 }

/-- Witness for C3: three documents, page 2 of size 2 — the last page, with
one (= 3 mod 2) document, total 3 and two pages. -/
theorem listing_pagination_witness :
    getUserFiles listStore 0 (some "2") (some "2") = Except.ok
      { files := ((userDocs listStore 0).drop ((2 - 1) * 2)).take 2
        totalPages := ((((userDocs listStore 0).length + 2 - 1) / 2 : Nat) : Int)
        total := (userDocs listStore 0).length
        currentPage := ((2 : Nat) : Int) } ∧
    (2 = ((userDocs listStore 0).length + 2 - 1) / 2 →
      (((userDocs listStore 0).drop ((2 - 1) * 2)).take 2).length =
        if (userDocs listStore 0).length % 2 = 0 ∧ 0 < (userDocs listStore 0).length
        then 2
        else (userDocs listStore 0).length % 2) ∧
    (((userDocs listStore 0).length + 2 - 1) / 2 < 2 →
      ((userDocs listStore 0).drop ((2 - 1) * 2)).take 2 = []) :=
  listing_pagination listStore 0 (some "2") (some "2") 2 2 (by decide) (by decide)
    (by decide) (by decide)

/-- C8: the listing returns documents whose store-assigned ids are strictly
increasing whenever the store's file collection is in id (creation) order:
the result is a take-drop window of a filtering of that collection, hence a
sublist of it.  The route itself is a pure function of the store and the
query, so repeated identical requests with no intervening writes return the
same documents in the same order. -/
theorem listing_creation_order (store : Store) (userId : Nat)
    (pq lq : Option String) (l : Listing)
    (hWf : (store.files.map Prod.fst).Pairwise (· < ·))
    (h : getUserFiles store userId pq lq = Except.ok l) :
    (l.files.map Prod.fst).Pairwise (· < ·) := by
  have hsub : l.files.Sublist store.files := by
    simp only [getUserFiles] at h
    cases hw : mongoWindow (userDocs store userId)
        ((parsePage pq - 1) * parseLimit lq) (parseLimit lq) with
    | error e =>
      rw [hw] at h
      exact absurd h (by simp)
    | ok fs =>
      rw [hw] at h
      simp only at h
      injection h with h1
      subst h1
      simp only
      unfold mongoWindow at hw
      split at hw
      · exact absurd hw (by simp)
      · split at hw
        · injection hw with h2
          rw [← h2]
          exact ((userDocs store userId).drop_sublist _).trans
            (List.filter_sublist store.files)
        · injection hw with h2
          rw [← h2]
          exact (List.take_sublist _ _).trans
            (((userDocs store userId).drop_sublist _).trans
              (List.filter_sublist store.files))
  exact List.Pairwise.sublist (hsub.map Prod.fst) hWf

/-- Witness for C8: the full first page over the three-document store. -/
theorem listing_creation_order_witness :
    ((({ files := [(0, sampleDoc), (1, sampleDoc), (2, sampleDoc)]
         totalPages := 1, total := 3, currentPage := 1 } : Listing).files.map
        Prod.fst).Pairwise (· < ·)) :=
  listing_creation_order listStore 0 none none
    { files := [(0, sampleDoc), (1, sampleDoc), (2, sampleDoc)]
      totalPages := 1, total := 3, currentPage := 1 }
    (by decide) rfl

/-- C9: because `router.get('/:id')` is registered before
`router.get('/all')`, a GET for the path segment "all" is dispatched to the
get-by-id handler with id "all", where the ObjectId cast fails and the catch
block answers a 500 error; consequently no request whatsoever reaches the
list-all handler. -/
theorem all_route_unreachable (store : Store) (segs : List String)
    (pq lq : Option String) :
    filesRouterGet store ["all"] pq lq =
      FilesGetResponse.byId
        (GetFileResult.serverError "Cast to ObjectId failed for value all") ∧
    (filesRouterGet store segs pq lq).isAllFiles = false := by
  constructor
  · rfl
  · cases segs with
    | nil => rfl
    | cons a t =>
      cases t with
      | nil =>
        simp [filesRouterGet, dispatchRoutes, filesGetRoutes, matchSegs,
          FilesGetResponse.isAllFiles]
      | cons b t2 =>
        cases t2 with
        | nil =>
          by_cases hu : a = "user" <;>
            simp [filesRouterGet, dispatchRoutes, filesGetRoutes, matchSegs, hu,
              FilesGetResponse.isAllFiles]
        | cons c t3 =>
          simp [filesRouterGet, dispatchRoutes, filesGetRoutes, matchSegs,
            FilesGetResponse.isAllFiles]

end RgbTest
